import Mathlib

/-!
Verification of the Health-for-all diagnostic chatbot core.

Shallow embedding of the repository's dialogue logic:
  * `src/ai_chatbot.py` — `extract_symptoms`, `identify_diseases`,
    `ask_next_symptom`, `get_disease_info`, `check_emergency`, and the
    decision logic of the `/chat` handler (`chat_step` below);
  * `src/webhook.py` — the synonym-aware `extract_symptoms` variant
    (`extract_symptoms_w`), `SYMPTOM_SYNONYMS`, the guarded
    `get_disease_info` (`get_disease_info_w`), and the `/webhook`
    handler's response-text computation (`webhook_turn`).

The pandas tables loaded at startup are modelled as association lists
inside a `Catalog` record:
  * `severity` — the rows of `Symptom-severity.csv` in file order
    (symptom name, severity 1–7);
  * `diseases` — `grouped_symptoms`: one entry per disease carrying the
    list of that disease's symptoms.  pandas `groupby` sorts its keys, so
    the list is in disease-name-ascending order for the real data, but no
    theorem below assumes sortedness unless stated;
  * `descriptions` / `precautions` — `symptom_Description.csv` and
    `symptom_precaution.csv` keyed by disease.

Fallible pandas accesses (`.values[0]` on an empty selection raises
`IndexError`, `.loc` on a missing key raises `KeyError`) are modelled
with `Option`: `none` is the uncaught exception.
-/

namespace HealthBot

/-- Boolean test that `pre` is a leading segment of the second list,
character by character.  Used to build the substring test. -/
def charsHasPre : List Char → List Char → Bool
  | [], _ => true
  | _ :: _, [] => false
  | a :: as, b :: bs => a == b && charsHasPre as bs

/-- Boolean substring containment on character lists: Python's
`needle in haystack`. -/
def charsHasSub (needle : List Char) : List Char → Bool
  | [] => needle.isEmpty
  | b :: bs => charsHasPre needle (b :: bs) || charsHasSub needle bs

/-- Lowercased character list of a string: Python's `s.lower()` applied
before matching. -/
def strLower (s : String) : List Char := s.data.map Char.toLower

/-- Case-insensitive substring test: Python's
`needle.lower() in haystack.lower()`. -/
def strHasSubLower (haystack needle : String) : Bool :=
  charsHasSub (strLower needle) (strLower haystack)

/-- The four CSV-derived tables shared by the two dialogue variants,
as loaded at module start of `ai_chatbot.py` / `webhook.py`. -/
structure Catalog where
  severity : List (String × Nat)
  diseases : List (String × List String)
  descriptions : List (String × String)
  precautions : List (String × List String)
deriving DecidableEq, Repr

/-- The severity of a symptom: first matching row of the severity table,
`symptom_severity[symptom_severity["Symptom"] == symptom]["Severity"].values[0]`.
`none` models the `IndexError` raised when the symptom is absent. -/
def severityLookup (cat : Catalog) (symptom : String) : Option Nat :=
  (cat.severity.find? (fun r => r.1 == symptom)).map Prod.snd

/-- `extract_symptoms` of `ai_chatbot.py` lines 48–53: every catalog
symptom whose lowercased name occurs as a substring of the lowercased
input is collected, in severity-table order. -/
def extract_symptoms (cat : Catalog) (user_input : String) : List String :=
  (cat.severity.map Prod.fst).filter (fun s => strHasSubLower user_input s)

/-- `identify_diseases` of `ai_chatbot.py` lines 56–62 and `webhook.py`
lines 116–123: a disease qualifies when every accumulated symptom belongs
to its symptom list (`all(symptom in disease_symptoms ...)`); results keep
the order of `grouped_symptoms`. -/
def identify_diseases (cat : Catalog) (symptoms : List String) : List String :=
  (cat.diseases.filter
    (fun dr => symptoms.all (fun s => decide (s ∈ dr.2)))).map Prod.fst

/-- Symptom list of one disease, `grouped_symptoms.loc[disease][1:]`.
`.loc` raises on a missing key; callers only pass keys produced by
`identify_diseases`, so the lookup is modelled totally with `[]` as the
never-reached default. -/
def diseaseSymsOf (cat : Catalog) (disease : String) : List String :=
  ((cat.diseases.find? (fun r => r.1 == disease)).map Prod.snd).getD []

/-- `ask_next_symptom` of `ai_chatbot.py` lines 65–70 / `webhook.py`
lines 125–135: the set union of the candidate diseases' symptom lists,
returned as `list(next_symptoms)`.  Python's set iteration order is
unspecified; the union is modelled as `dedup` of the concatenation and
theorems about it use membership only. -/
def ask_next_symptom (cat : Catalog) (possible : List String) : List String :=
  ((possible.map (fun d => diseaseSymsOf cat d)).flatten).dedup

/-- `get_disease_info` of `ai_chatbot.py` lines 73–78: the description's
`.values[0]` raises when the disease is missing (`none` here); the
precaution row, when absent, flattens to an empty join without error. -/
def get_disease_info (cat : Catalog) (disease : String) :
    Option (String × String) :=
  match cat.descriptions.find? (fun r => r.1 == disease) with
  | none => none
  | some r =>
    let precs := ((cat.precautions.find? (fun q => q.1 == disease)).map
      Prod.snd).getD []
    some (r.2, ", ".intercalate precs)

/-- `get_disease_info` of `webhook.py` lines 137–154: same lookup wrapped
in `try/except`, falling back to fixed default strings. -/
def get_disease_info_w (cat : Catalog) (disease : String) : String × String :=
  match get_disease_info cat disease with
  | some info => info
  | none => ("No description available", "No precautions available")

/-- `check_emergency` of `ai_chatbot.py` lines 81–86 / `webhook.py`
lines 156–162: scan the confirmed symptoms in order; return `True` at the
first one whose severity equals 7, `False` when none does.  A symptom
absent from the severity table raises `IndexError` (`none`). -/
def check_emergency (cat : Catalog) : List String → Option Bool
  | [] => some false
  | s :: rest =>
    match severityLookup cat s with
    | none => none
    | some sev => if sev == 7 then some true else check_emergency cat rest

/-- Outcome of one `/chat` turn of `ai_chatbot.py`, abstracting the
response strings of lines 121–132 into their branch. -/
inductive Outcome where
  | askFollowup : List String → Outcome
  | diagnosis : String → Bool → Outcome
  | noMatch : Outcome
deriving DecidableEq, Repr

/-- One turn of the `/chat` handler of `ai_chatbot.py` lines 102–134:
extract symptoms from the echoed text, `extend` them onto the session's
symptom list, identify candidates, and branch on the candidate count.
The returned pair is (updated session symptom list, outcome); outcome
`none` models an uncaught exception (missing description row or missing
severity row).  The emergency check runs only inside the
exactly-one-candidate branch, mirroring lines 124–130. -/
def chat_step (cat : Catalog) (state : List String) (input : String) :
    List String × Option Outcome :=
  let detected := extract_symptoms cat input
  let state2 := state ++ detected
  let possible := identify_diseases cat state2
  let out : Option Outcome :=
    if possible.length > 1 then
      some (Outcome.askFollowup (ask_next_symptom cat possible))
    else if possible.length == 1 then
      match possible.head? with
      | none => none
      | some d =>
        match get_disease_info cat d with
        | none => none
        | some _ =>
          match check_emergency cat state2 with
          | none => none
          | some e => some (Outcome.diagnosis d e)
    else some Outcome.noMatch
  (state2, out)

/-- The hardcoded `SYMPTOM_SYNONYMS` map of `webhook.py` lines 56–61. -/
def SYMPTOM_SYNONYMS : List (String × List String) :=
  [("fever", ["feverish", "high temperature", "hot"]),
   ("headache", ["head pain", "migraine"]),
   ("nausea", ["sick", "queasy"])]

/-- `extract_symptoms` of `webhook.py` lines 97–114 (English path):
substring matches against the severity table, then each synonym map entry
whose synonym occurs in the lowercased text contributes its canonical
name once; the result is `list(set(...))`, modelled as `dedup` of the
concatenation (set order unspecified, membership is what matters). -/
def extract_symptoms_w (cat : Catalog) (text : String) : List String :=
  let direct := (cat.severity.map Prod.fst).filter
    (fun s => strHasSubLower text s)
  let syn := (SYMPTOM_SYNONYMS.filter
    (fun p => p.2.any (fun y => charsHasSub y.data (strLower text)))).map
    Prod.fst
  (direct ++ syn).dedup

/-- Response-text computation of the `/webhook` handler of `webhook.py`
lines 203–274 for the English language path: `response_text` starts as
the empty string and the `Follow-up Symptoms` / `No More Symptoms`
branches are `pass` stubs that leave it empty; an exception escaping the
dialogue logic (`none` from `check_emergency`) is caught by the outer
`try/except` and replaced by the error fallback text. -/
def webhook_turn (cat : Catalog) (intent_name : String)
    (symptoms : List String) : String :=
  let core : Option String :=
    if intent_name == "General Symptoms" || intent_name == "Multiple Symptoms"
    then
      if symptoms.isEmpty then
        some "Could you describe your symptoms in more detail?"
      else
        let possible := identify_diseases cat symptoms
        if possible.length > 1 then
          some ("Do you also have any of these symptoms: " ++
            ", ".intercalate (ask_next_symptom cat possible) ++ "?")
        else if possible.length == 1 then
          match possible.head? with
          | none => none
          | some d =>
            let info := get_disease_info_w cat d
            match check_emergency cat symptoms with
            | none => none
            | some true =>
              some ("EMERGENCY: Please seek immediate medical attention! " ++
                "You might have " ++ d ++ ". " ++ info.1 ++
                ". Precautions: " ++ info.2)
            | some false =>
              some ("You might have " ++ d ++ ". " ++ info.1 ++
                ". Precautions: " ++ info.2)
        else
          some "I couldn't identify any matching diseases. Please consult a doctor."
    else if intent_name == "Follow-up Symptoms" then some ""
    else if intent_name == "No More Symptoms" then some ""
    else some "I didn't understand that. Could you describe your symptoms?"
  match core with
  | some t => t
  | none => "Sorry, I encountered an error. Please try again."

/-- A two-disease catalog used for concrete evaluations: Apple has
symptoms fever and cough, Berry has fever and rash. -/
def catAB : Catalog where
  severity := [("fever", 3), ("cough", 3), ("rash", 3)]
  diseases := [("Apple", ["fever", "cough"]), ("Berry", ["fever", "rash"])]
  descriptions := [("Apple", "apple description"), ("Berry", "berry description")]
  precautions := [("Apple", ["rest"]), ("Berry", ["hydrate"])]

/-- A catalog whose shared symptom chestpain has severity 7: both
diseases contain it, so one mention leaves two candidates while the
emergency check on the accumulated symptoms would already return true. -/
def catEm : Catalog where
  severity := [("chestpain", 7), ("fever", 3), ("rash", 3)]
  diseases := [("Apple", ["chestpain", "fever"]), ("Berry", ["chestpain", "rash"])]
  descriptions := [("Apple", "apple description"), ("Berry", "berry description")]
  precautions := []

/-- A catalog containing a severity-6 symptom, for the emergency
threshold check. -/
def catSix : Catalog where
  severity := [("numbness", 6)]
  diseases := [("Apple", ["numbness"])]
  descriptions := [("Apple", "apple description")]
  precautions := []

/-- A one-symptom catalog whose only symptom name "ache" is a proper
substring of the word "headache". -/
def catAche : Catalog where
  severity := [("ache", 3)]
  diseases := [("Apple", ["ache"])]
  descriptions := [("Apple", "apple description")]
  precautions := []

/-- A severity table without the synonym canonical "fever": the synonym
path of the webhook extractor can then emit a symptom that the severity
lookup does not know. -/
def catNoFever : Catalog where
  severity := [("cough", 4)]
  diseases := [("Apple", ["cough"])]
  descriptions := [("Apple", "apple description")]
  precautions := []

/-- A single-disease catalog with a severity-7 symptom, for witnesses of
the single-candidate emergency path. -/
def catOne : Catalog where
  severity := [("vomiting", 7)]
  diseases := [("Apex", ["vomiting"])]
  descriptions := [("Apex", "apex description")]
  precautions := [("Apex", ["call help"])]

/-- A severity table containing all three synonym canonicals, for the
witness of the guarded severity-lookup property. -/
def catSyn : Catalog where
  severity := [("fever", 3), ("headache", 3), ("nausea", 4)]
  diseases := [("Apple", ["fever", "headache"])]
  descriptions := [("Apple", "apple description")]
  precautions := []

/-- Projection of the follow-up question's symptom list out of a turn
outcome (empty for the other branches). -/
def followupList : Option Outcome → List String
  | some (Outcome.askFollowup l) => l
  | _ => []

/-- Whether a turn outcome is the follow-up question branch. -/
def isFollowup : Option Outcome → Bool
  | some (Outcome.askFollowup _) => true
  | _ => false

end HealthBot

namespace HealthBot

/-- Helper: a list containing an element satisfying the predicate has a
successful `find?`. -/
theorem find?_isSome_of_mem {α : Type} (p : α → Bool) {l : List α} {x : α}
    (hx : x ∈ l) (hp : p x = true) : (l.find? p).isSome = true := by
  induction l with
  | nil => cases hx
  | cons a t ih =>
    rcases List.mem_cons.mp hx with rfl | hxt
    · simp [List.find?, hp]
    · cases hpa : p a
      · simpa [List.find?, hpa] using ih hxt
      · simp [List.find?, hpa]

/-- Claim C1 (counterexample): with accumulated symptoms {fever, cough},
disease Berry = {fever, rash} has non-empty intersection {fever}, yet
`identify_diseases` returns only Apple — no ratio score is assigned and
diseases are not ranked by |syms ∩ S_D| / |S_D|. -/
theorem identify_diseases_not_ratio_ranked :
    ("Berry", ["fever", "rash"]) ∈ catAB.diseases ∧
    "fever" ∈ (["fever", "cough"] : List String) ∧
    "fever" ∈ (["fever", "rash"] : List String) ∧
    identify_diseases catAB ["fever", "cough"] = ["Apple"] := by decide

/-- Claim C1 (amended): `identify_diseases` returns exactly the diseases
whose symptom list contains every accumulated symptom, in the order of
the `grouped_symptoms` table (disease name ascending for real data); no
score is computed. -/
theorem identify_diseases_superset_rule (cat : Catalog) (syms : List String) :
    (∀ d, d ∈ identify_diseases cat syms ↔
      ∃ ss, (d, ss) ∈ cat.diseases ∧ ∀ s ∈ syms, s ∈ ss) ∧
    List.Sublist (identify_diseases cat syms) (cat.diseases.map Prod.fst) := by
  constructor
  · intro d
    constructor
    · intro hd
      simp only [identify_diseases, List.mem_map, List.mem_filter,
        List.all_eq_true, decide_eq_true_eq] at hd
      obtain ⟨⟨n, ss⟩, ⟨hmem, hall⟩, rfl⟩ := hd
      exact ⟨ss, hmem, hall⟩
    · rintro ⟨ss, hmem, hall⟩
      simp only [identify_diseases, List.mem_map, List.mem_filter,
        List.all_eq_true, decide_eq_true_eq]
      exact ⟨(d, ss), ⟨hmem, hall⟩, rfl⟩
  · exact List.Sublist.map Prod.fst (List.filter_sublist _)

/-- Claim C2 (counterexample): one mention of the severity-7 symptom
chestpain leaves two candidate diseases, so the turn returns the
follow-up question branch even though the emergency check on the
accumulated symptoms is already true — emergency does not take priority
over the multi-candidate branch. -/
theorem emergency_not_prioritized :
    check_emergency catEm ["chestpain"] = some true ∧
    isFollowup (chat_step catEm [] "chestpain").2 = true := by decide

/-- Claim C2 (amended): the emergency check is consulted only in the
exactly-one-candidate branch; when exactly one candidate remains, its
description lookup succeeds and the emergency check returns `e`, the
turn's outcome is the diagnosis of that disease flagged with `e`. -/
theorem chat_emergency_single_candidate (cat : Catalog) (st : List String)
    (input : String) (d : String) (e : Bool)
    (h1 : identify_diseases cat (st ++ extract_symptoms cat input) = [d])
    (h2 : (get_disease_info cat d).isSome = true)
    (h3 : check_emergency cat (st ++ extract_symptoms cat input) = some e) :
    (chat_step cat st input).2 = some (Outcome.diagnosis d e) := by
  obtain ⟨info, hinfo⟩ := Option.isSome_iff_exists.mp h2
  simp [chat_step, h1, hinfo, h3]

/-- Claim C2 (witness): in the one-disease catalog, the severity-7
symptom vomiting resolves to Apex with the emergency flag set. -/
theorem chat_emergency_single_candidate_witness :
    (chat_step catOne [] "vomiting").2 = some (Outcome.diagnosis "Apex" true) :=
  chat_emergency_single_candidate catOne [] "vomiting" "Apex" true
    (by decide) (by decide) (by decide)

/-- Claim C3 (counterexample): a confirmed symptom of severity exactly 6
is not classified as an emergency — the code tests `severity == 7`, not
`severity ≥ 6`. -/
theorem severity_six_not_emergency :
    severityLookup catSix "numbness" = some 6 ∧
    check_emergency catSix ["numbness"] = some false := by decide

/-- Claim C3 (amended): when every confirmed symptom is present in the
severity table, the emergency check returns true exactly when some
confirmed symptom has severity equal to 7; no raw-text phrase matching
is performed (the function never sees the utterance). -/
theorem check_emergency_eq_seven (cat : Catalog) (syms : List String)
    (h : ∀ s ∈ syms, (severityLookup cat s).isSome = true) :
    check_emergency cat syms =
      some (syms.any (fun s => decide (severityLookup cat s = some 7))) := by
  induction syms with
  | nil => rfl
  | cons s rest ih =>
    have hs : (severityLookup cat s).isSome = true := h s (by simp)
    obtain ⟨sev, hsev⟩ := Option.isSome_iff_exists.mp hs
    by_cases h7 : sev = 7
    · simp [check_emergency, hsev, h7]
    · simp [check_emergency, hsev, h7,
        ih (fun x hx => h x (List.mem_cons_of_mem _ hx))]

/-- Claim C3 (witness): the severity-7 symptom vomiting makes the
emergency check agree with the any-severity-equals-7 scan. -/
theorem check_emergency_eq_seven_witness :
    check_emergency catOne ["vomiting"] =
      some ((["vomiting"] : List String).any
        (fun s => decide (severityLookup catOne s = some 7))) :=
  check_emergency_eq_seven catOne ["vomiting"] (by decide)

/-- Claim C4 (counterexample): on the empty symptom list the universal
condition is vacuous, so `identify_diseases` returns every disease of the
catalog rather than the empty sequence. -/
theorem identify_diseases_empty_not_empty :
    identify_diseases catAB [] = ["Apple", "Berry"] ∧
    identify_diseases catAB [] ≠ [] := by decide

/-- Claim C4 (amended): for the empty symptom set the ranker returns all
diseases of the catalog, in catalog order. -/
theorem identify_diseases_empty_eq_all (cat : Catalog) :
    identify_diseases cat [] = cat.diseases.map Prod.fst := by
  simp [identify_diseases]

/-- Claim C5 (counterexample): both extractors report the symptom "ache"
for the text "headache" — matching is naive substring containment, not
word-boundary matching. -/
theorem ache_matches_inside_headache :
    extract_symptoms catAche "headache" = ["ache"] ∧
    extract_symptoms_w catAche "headache" = ["ache"] := by decide

/-- Claim C5 (amended): a catalog symptom is reported exactly when its
lowercased name occurs as a (not necessarily word-aligned) substring of
the lowercased input text. -/
theorem extract_symptoms_substring_rule (cat : Catalog) (text : String)
    (s : String) :
    s ∈ extract_symptoms cat text ↔
      s ∈ cat.severity.map Prod.fst ∧ strHasSubLower text s = true := by
  simp [extract_symptoms, List.mem_filter]

/-- Claim C6 (counterexample): after confirming fever, the follow-up
question's symptom list still contains fever — already-confirmed symptoms
are not subtracted from the union. -/
theorem followup_includes_confirmed :
    "fever" ∈ (chat_step catAB [] "fever").1 ∧
    "fever" ∈ followupList (chat_step catAB [] "fever").2 := by decide

/-- Claim C6 (amended): the follow-up symptom list is the plain union of
the remaining candidates' symptom lists, with no subtraction of confirmed
or previously asked symptoms (no asked-this-round bookkeeping exists). -/
theorem ask_next_symptom_plain_union (cat : Catalog) (possible : List String)
    (s : String) :
    s ∈ ask_next_symptom cat possible ↔
      ∃ d ∈ possible, s ∈ diseaseSymsOf cat d := by
  simp [ask_next_symptom, List.mem_dedup, List.mem_flatten, List.mem_map]

/-- Claim C7: the candidate filter's condition for a larger symptom set
implies the condition for a smaller one, so adding confirmed symptoms
never expands the candidate list. -/
theorem identify_diseases_count_antitone (cat : Catalog) (A B : List String)
    (h : A ⊆ B) :
    (identify_diseases cat B).length ≤ (identify_diseases cat A).length := by
  simp only [identify_diseases, List.length_map]
  apply List.Sublist.length_le
  apply List.monotone_filter_right
  intro dr hdr
  simp only [List.all_eq_true, decide_eq_true_eq] at hdr ⊢
  exact fun s hs => hdr s (h hs)

/-- Claim C7 (witness): {fever} ⊆ {fever, cough} and the candidate count
drops from 2 to 1. -/
theorem identify_diseases_count_antitone_witness :
    (identify_diseases catAB ["fever", "cough"]).length ≤
      (identify_diseases catAB ["fever"]).length :=
  identify_diseases_count_antitone catAB ["fever"] ["fever", "cough"]
    (by decide)

/-- Claim C8 (counterexample): re-reporting the already-confirmed symptom
fever grows the session's accumulated collection from length 1 to
length 2 — the `/chat` handler extends a plain list, so duplicates do not
collapse. -/
theorem merge_duplicates_grow :
    "fever" ∈ (["fever"] : List String) ∧
    extract_symptoms catAB "fever" = ["fever"] ∧
    (chat_step catAB ["fever"] "fever").1.length ≠
      (["fever"] : List String).length := by decide

/-- Claim C8 (amended): extraction is a pure function (same text, same
result trivially), but the session merge is a list append: the
accumulated collection always grows by the number of extracted symptoms,
even when they are already present. -/
theorem chat_step_appends_detected (cat : Catalog) (st : List String)
    (input : String) :
    (chat_step cat st input).1 = st ++ extract_symptoms cat input ∧
    (chat_step cat st input).1.length =
      st.length + (extract_symptoms cat input).length := by
  refine ⟨rfl, ?_⟩
  simp [chat_step]

/-- Claim C9: the `Follow-up Symptoms` and `No More Symptoms` intents are
`pass` stubs, so the webhook returns an empty fulfillment text for them,
contradicting the guarantee that every path ends with a non-empty
utterance. -/
theorem webhook_stub_intent_empty_text :
    webhook_turn catAB "Follow-up Symptoms" ["fever"] = "" ∧
    webhook_turn catAB "No More Symptoms" ["fever"] = "" := by decide

/-- Claim C10 (counterexample): with a severity table lacking "fever",
the synonym path extracts "fever" from "feverish", its severity lookup
fails, and `check_emergency` on the extracted list hits the unguarded
`.values[0]` (modelled as `none`, the IndexError). -/
theorem synonym_symptom_missing_from_severity :
    extract_symptoms_w catNoFever "feverish" = ["fever"] ∧
    severityLookup catNoFever "fever" = none ∧
    check_emergency catNoFever (extract_symptoms_w catNoFever "feverish") =
      none := by decide

/-- Claim C10 (amended): directly matched symptoms are always severity
table keys; synonym-introduced canonicals are keys only when the table
contains them — under that condition every extracted symptom's severity
lookup succeeds. -/
theorem extract_w_lookup_succeeds (cat : Catalog) (text : String)
    (h : ∀ p ∈ SYMPTOM_SYNONYMS, (severityLookup cat p.1).isSome = true)
    (s : String) (hs : s ∈ extract_symptoms_w cat text) :
    (severityLookup cat s).isSome = true := by
  simp only [extract_symptoms_w, List.mem_dedup, List.mem_append] at hs
  rcases hs with hdirect | hsyn
  · have hmem : s ∈ cat.severity.map Prod.fst :=
      List.mem_of_mem_filter hdirect
    obtain ⟨r, hr, rfl⟩ := List.mem_map.mp hmem
    have : (cat.severity.find? (fun q => q.1 == r.1)).isSome = true :=
      find?_isSome_of_mem _ hr (by simp)
    simpa [severityLookup] using this
  · obtain ⟨p, hp, rfl⟩ := List.mem_map.mp hsyn
    exact h p (List.mem_of_mem_filter hp)

/-- Claim C10 (witness): with all three synonym canonicals in the table,
the symptom extracted from "feverish" has a successful severity lookup. -/
theorem extract_w_lookup_succeeds_witness :
    (severityLookup catSyn "fever").isSome = true :=
  extract_w_lookup_succeeds catSyn "feverish" (by decide) "fever" (by decide)

end HealthBot
